import Mathlib

/-!
Verification development for the JARVIS voice-assistant repository.

The source under scrutiny is `src/command_processing/processor.py`
(`CommandProcessor`: the pattern table, `process_command` and the command
handlers), `src/system_operations/security_manager.py` (`SecurityManager`:
privacy settings, encrypted secure storage, the access log) and
`src/system_operations/system_handler.py` (`SystemHandler.execute_command`
and `SystemHandler._resolve_path`).

The embedding works over `List Char`.  Python string primitives used by the
code (`str.lower`, `str.strip`, `str.split`, substring containment, slicing)
are modelled character by character for the ASCII range that the command
vocabulary lives in.  Python's `re.match` is modelled by a backtracking
matcher over a regular-expression syntax tree; the matcher implements
Python's priority order (alternation tries the left branch first, greedy
quantifiers try the longer match first, lazy quantifiers the shorter one)
and `re.match` anchoring (a match must start at position 0 and may end
anywhere).  `re.IGNORECASE` is immaterial here because `process_command`
lower-cases the input before matching and every literal in the pattern
table is already lower-case.
-/

namespace Jarvis

/-- The apostrophe character, kept out of string literals. -/
def apos : Char := Char.ofNat 39

/-- Python whitespace for the ASCII range: the characters stripped by
`str.strip()` and matched by the regex class `\s`
(space, tab, newline, carriage return, vertical tab, form feed). -/
def isPySpace (c : Char) : Bool :=
  c = ' ' || c = '\t' || c = '\n' || c = '\r' ||
  c = Char.ofNat 11 || c = Char.ofNat 12

/-- ASCII model of Python `str.lower` on a single character: the code points
65-90 (A-Z) shift by 32, everything else is unchanged. -/
def pyLowerChar (c : Char) : Char :=
  if 65 ≤ c.toNat ∧ c.toNat ≤ 90 then Char.ofNat (c.toNat + 32) else c

/-- Python `str.lower`. -/
def pyLower (l : List Char) : List Char := l.map pyLowerChar

/-- Drop trailing Python whitespace. -/
def dropTrailingWs (l : List Char) : List Char :=
  ((l.reverse).dropWhile isPySpace).reverse

/-- Python `str.strip()`. -/
def pyStrip (l : List Char) : List Char :=
  dropTrailingWs (l.dropWhile isPySpace)

/-- Python `str.split()` with no argument: split on runs of whitespace,
discarding empty pieces. -/
def pySplitWs (l : List Char) : List (List Char) :=
  (l.splitOnP isPySpace).filter (fun w => w ≠ [])

/-- The input normalisation performed by `process_command`
(line 172 of `processor.py`): `command_text.lower().strip()`. -/
def normalize (l : List Char) : List Char := pyStrip (pyLower l)

/-! ### Regular expressions

Syntax trees for the regex dialect actually used by the pattern table:
literal characters, `.`, `\s`, concatenation, alternation, greedy and lazy
`*`/`+`/`?`, named groups `(?P<n>...)` and the `$` anchor.  Plain `( )` and
`(?: )` groups carry no semantics the development relies on (the dispatcher
passes positional captures to handlers but every modelled handler reads its
argument from the named-capture dictionary), so they are represented by
bare nesting. -/

inductive RE where
  | eps : RE
  | ch : Char → RE
  | dot : RE
  | wsp : RE
  | seq : RE → RE → RE
  | alt : RE → RE → RE
  | star : Bool → RE → RE
  | opt : Bool → RE → RE
  | grp : String → RE → RE
  | dollar : RE
deriving DecidableEq, Repr

/-- Named-capture dictionary produced by a match (Python `match.groupdict()`
restricted to the groups that participated in the match; a group that did
not participate reports `None` in Python and is simply absent here). -/
abbrev Caps := List (String × List Char)

/-- Overwrite-or-append assignment for an association list
(Python `dict` item assignment). -/
def setAssoc {α : Type} (caps : List (String × α)) (n : String) (v : α) :
    List (String × α) :=
  match caps with
  | [] => [(n, v)]
  | (m, w) :: rest => if m = n then (n, v) :: rest else (m, w) :: setAssoc rest n v

/-- Lookup in an association list (Python `dict.get`). -/
def getAssoc {α : Type} (l : List (String × α)) (n : String) : Option α :=
  match l with
  | [] => none
  | (m, w) :: rest => if m = n then some w else getAssoc rest n

/-- Left-biased choice used to order backtracking alternatives. -/
def orElseL {α : Type} (a b : Option α) : Option α :=
  match a with
  | some x => some x
  | none => b

/-- Backtracking matcher in continuation-passing style.  `mrun fuel r s caps k`
tries to match `r` against a prefix of `s`, extending the capture dictionary
`caps`, and calls the continuation `k` on every candidate suffix in Python's
backtracking priority order, returning the first success.  `fuel` bounds the
recursion depth; every concrete use supplies more fuel than the match can
consume, and the safety theorems only ever need a handful of unfoldings. -/
def mrun : Nat → RE → List Char → Caps →
    (Caps → List Char → Option (Caps × List Char)) → Option (Caps × List Char)
  | 0, _, _, _, _ => none
  | fuel + 1, r, s, caps, k =>
    match r with
    | .eps => k caps s
    | .ch c =>
      match s with
      | [] => none
      | a :: rest => if a = c then k caps rest else none
    | .dot =>
      match s with
      | [] => none
      | a :: rest => if a = '\n' then none else k caps rest
    | .wsp =>
      match s with
      | [] => none
      | a :: rest => if isPySpace a then k caps rest else none
    | .seq r1 r2 =>
      mrun fuel r1 s caps (fun c2 s2 => mrun fuel r2 s2 c2 k)
    | .alt r1 r2 =>
      orElseL (mrun fuel r1 s caps k) (mrun fuel r2 s caps k)
    | .opt lz r1 =>
      if lz then orElseL (k caps s) (mrun fuel r1 s caps k)
      else orElseL (mrun fuel r1 s caps k) (k caps s)
    | .star lz r1 =>
      if lz then
        orElseL (k caps s)
          (mrun fuel r1 s caps (fun c2 s2 => mrun fuel (.star lz r1) s2 c2 k))
      else
        orElseL
          (mrun fuel r1 s caps (fun c2 s2 => mrun fuel (.star lz r1) s2 c2 k))
          (k caps s)
    | .grp n r1 =>
      mrun fuel r1 s caps
        (fun c2 s2 => k (setAssoc c2 n (s.take (s.length - s2.length))) s2)
    | .dollar =>
      if s = [] ∨ s = ['\n'] then k caps s else none

/-- Size of a regex tree, used to budget matcher fuel. -/
def reSize : RE → Nat
  | .eps => 1
  | .ch _ => 1
  | .dot => 1
  | .wsp => 1
  | .seq a b => 1 + reSize a + reSize b
  | .alt a b => 1 + reSize a + reSize b
  | .star _ a => 1 + reSize a
  | .opt _ a => 1 + reSize a
  | .grp _ a => 1 + reSize a
  | .dollar => 1

/-- Fuel that comfortably dominates the recursion depth of any match of `r`
against `s`. -/
def bigFuel (r : RE) (s : List Char) : Nat :=
  2 * (reSize r + 1) * (s.length + 2) + 8

/-- Python `re.match(r, s)`: anchored at position 0, free on the right.
Returns the capture dictionary of the leftmost-priority match. -/
def reMatchCaps (r : RE) (s : List Char) : Option Caps :=
  match mrun (bigFuel r s) r s [] (fun caps s2 => some (caps, s2)) with
  | some (caps, _) => some caps
  | none => none

/-- Smart constructors used to transcribe the pattern table. -/
def strLit (s : String) : RE := s.data.foldr (fun c r => .seq (.ch c) r) .eps

/-- Concatenation of a list of regexes. -/
def rcat (rs : List RE) : RE := rs.foldr .seq .eps

/-- `(a|b|c|...)`, tried left to right like Python alternation. -/
def altL (r : RE) (rs : List RE) : RE := rs.foldl .alt r

/-- Greedy `?`. -/
def q (r : RE) : RE := .opt false r

/-- Greedy `+`. -/
def plusG (r : RE) : RE := .seq r (.star false r)

/-- Lazy `+?`. -/
def plusL (r : RE) : RE := .seq r (.star true r)

/-- `.+` -/
def dotPlus : RE := plusG .dot

/-- `.+?` -/
def dotPlusLazy : RE := plusL .dot

/-- A one-character string holding an apostrophe. -/
def sq : String := String.mk [apos]

/-! ### The pattern table

`CommandProcessor.__init__` builds `self.commands`, a Python dict (insertion
ordered) from regex source strings to bound handler methods
(`processor.py` lines 77-162).  Handlers are represented by tags; the regex
of every row is transcribed below in table order.  In the row comments an
apostrophe occurring in a pattern is written as \x27. -/

inductive Handler where
  | getTimeDate
  | getWeather
  | getSystemInfo
  | getCpuInfo
  | getMemoryInfo
  | getDiskInfo
  | getNetworkInfo
  | getGraphicsInfo
  | getRunningProcesses
  | getInstalledApplications
  | getSystemHealth
  | searchFiles
  | analyzeFileTypes
  | getConnectedDevices
  | getMonitorInfo
  | getPrinterInfo
  | getUsbDevices
  | getAudioDevices
  | getBluetoothDevices
  | scanForNewDevices
  | openApplication
  | createDirectory
  | createDirectoryPrompt
  | deleteDirectory
  | updateDirectory
  | insertIntoDirectory
  | createFile
  | deleteItem
  | executeCommand
  | answerQuestion
  | shutdown
  | introduceSelf
  | moodResponse
  | youreWelcome
  | helpCommand
  | handleEnablePrivacySetting
  | handleDisablePrivacySetting
  | handleShowPrivacySettings
  | handleClearData
  | handleAddSensitiveDirectory
  | handleShowDataAccessLog
  | handleDataSecurityStatus
  | defaultResponse
deriving DecidableEq, Repr

/-- (tell me|what\x27s|what is) -/
def tellWhatsWhatIs : RE :=
  altL (strLit "tell me") [strLit ("what" ++ sq ++ "s"), strLit "what is"]

/-- ( about)? -/
def aboutOpt : RE := q (strLit " about")

/-- ( my)? -/
def myOpt : RE := q (strLit " my")

/-- ( info| information)? -/
def infoOpt : RE := q (altL (strLit " info") [strLit " information"])

/-- (tell me|what) -/
def tellWhat : RE := altL (strLit "tell me") [strLit "what"]

/-- Rows 88-94 of the source share this shape:
(tell me|what\x27s|what is)( about)?( my)? TOPIC( info| information)? -/
def analysisRE (topic : RE) : RE :=
  rcat [tellWhatsWhatIs, aboutOpt, myOpt, strLit " ", topic, infoOpt]

/-- VERB (?P<app_name>.+?)(\s+with\s+(?P<args>.+))?$ (rows 111-114). -/
def appRE (verb : String) : RE :=
  rcat [strLit (verb ++ " "), .grp "app_name" dotPlusLazy,
    q (rcat [plusG .wsp, strLit "with", plusG .wsp, .grp "args" dotPlus]), .dollar]

/-- (?:folder|directory|dir) -/
def dirWordRE : RE := altL (strLit "folder") [strLit "directory", strLit "dir"]

/-- ( called| named)? -/
def calledNamedOpt : RE := q (altL (strLit " called") [strLit " named"])

/-- VERB (a )?(?:folder|directory|dir)( called| named)? (?P<dir_path>.+) -/
def createDirRE (verb : String) : RE :=
  rcat [strLit (verb ++ " "), q (strLit "a "), dirWordRE, calledNamedOpt,
    strLit " ", .grp "dir_path" dotPlus]

/-- VERB (?:the )?(?:folder|directory|dir)( called| named)? (?P<dir_path>.+) -/
def delDirRE (verb : String) : RE :=
  rcat [strLit (verb ++ " "), q (strLit "the "), dirWordRE, calledNamedOpt,
    strLit " ", .grp "dir_path" dotPlus]

/-- VERB (a )?file( called| named)? (?P<file_path>.+) -/
def createFileRE (verb : String) : RE :=
  rcat [strLit (verb ++ " "), q (strLit "a "), strLit "file", calledNamedOpt,
    strLit " ", .grp "file_path" dotPlus]

/-- VERB( the| my)?( file| directory| folder)? (?P<path>.+) -/
def delItemRE (verb : String) : RE :=
  rcat [strLit verb, q (altL (strLit " the") [strLit " my"]),
    q (altL (strLit " file") [strLit " directory", strLit " folder"]),
    strLit " ", .grp "path" dotPlus]

/-- VERB( the)? command (?P<command>.+) -/
def cmdRE (verb : String) : RE :=
  rcat [strLit verb, q (strLit " the"), strLit " command ", .grp "command" dotPlus]

/-- VERBS (?P<setting>.+?) (?:data collection|tracking|monitoring) -/
def privacyToggleRE (verbs : RE) : RE :=
  rcat [verbs, strLit " ", .grp "setting" dotPlusLazy, strLit " ",
    altL (strLit "data collection") [strLit "tracking", strLit "monitoring"]]

/-- Rows 0-55 of the table (`processor.py` lines 77-159), in dict insertion
order; the catch-all is appended separately because the source marks it as
the row that must stay last. -/
def mainTable : List (RE × Handler) :=
  [ -- 0: what (time|day|date) is it
    (rcat [strLit "what ", altL (strLit "time") [strLit "day", strLit "date"],
      strLit " is it"], .getTimeDate),
    -- 1: (current|today\x27s) (time|date)
    (rcat [altL (strLit "current") [strLit ("today" ++ sq ++ "s")], strLit " ",
      altL (strLit "time") [strLit "date"]], .getTimeDate),
    -- 2: (tell me|what\x27s) the (time|date)
    (rcat [altL (strLit "tell me") [strLit ("what" ++ sq ++ "s")], strLit " the ",
      altL (strLit "time") [strLit "date"]], .getTimeDate),
    -- 3: (what\x27s|what is|how\x27s) the weather( like)?( today| now)?( in (?P<location>.+))?
    (rcat [altL (strLit ("what" ++ sq ++ "s")) [strLit "what is", strLit ("how" ++ sq ++ "s")],
      strLit " the weather", q (strLit " like"),
      q (altL (strLit " today") [strLit " now"]),
      q (rcat [strLit " in ", .grp "location" dotPlus])], .getWeather),
    -- 4: (weather|temperature|forecast)( in| for)? (?P<location>.+)
    (rcat [altL (strLit "weather") [strLit "temperature", strLit "forecast"],
      q (altL (strLit " in") [strLit " for"]), strLit " ",
      .grp "location" dotPlus], .getWeather),
    -- 5: (tell me|what\x27s|what is)( about)?( my)? (system|pc|computer)( info| information)?
    (analysisRE (altL (strLit "system") [strLit "pc", strLit "computer"]), .getSystemInfo),
    -- 6: (system|pc|computer)( information| info)
    (rcat [altL (strLit "system") [strLit "pc", strLit "computer"],
      altL (strLit " information") [strLit " info"]], .getSystemInfo),
    -- 7: ... (cpu|processor)( info| information)?
    (analysisRE (altL (strLit "cpu") [strLit "processor"]), .getCpuInfo),
    -- 8: ... (memory|ram)( info| information)?
    (analysisRE (altL (strLit "memory") [strLit "ram"]), .getMemoryInfo),
    -- 9: ... (disk|storage|drive)( info| information)?
    (analysisRE (altL (strLit "disk") [strLit "storage", strLit "drive"]), .getDiskInfo),
    -- 10: ... (network|internet)( info| information)?
    (analysisRE (altL (strLit "network") [strLit "internet"]), .getNetworkInfo),
    -- 11: ... (graphics|gpu|video card)( info| information)?
    (analysisRE (altL (strLit "graphics") [strLit "gpu", strLit "video card"]), .getGraphicsInfo),
    -- 12: (show|list|what) (processes|applications)( are)? running
    (rcat [altL (strLit "show") [strLit "list", strLit "what"], strLit " ",
      altL (strLit "processes") [strLit "applications"], q (strLit " are"),
      strLit " running"], .getRunningProcesses),
    -- 13: (show|list|what) (applications|programs|software)( are)? installed
    (rcat [altL (strLit "show") [strLit "list", strLit "what"], strLit " ",
      altL (strLit "applications") [strLit "programs", strLit "software"],
      q (strLit " are"), strLit " installed"], .getInstalledApplications),
    -- 14: (tell me|what\x27s|what is)( the)? (system|pc|computer) health
    (rcat [tellWhatsWhatIs, q (strLit " the"), strLit " ",
      altL (strLit "system") [strLit "pc", strLit "computer"],
      strLit " health"], .getSystemHealth),
    -- 15: (search|find)( for)?( files)? (?P<pattern>.+?)( in| within)? (?P<path>.+)
    (rcat [altL (strLit "search") [strLit "find"], q (strLit " for"),
      q (strLit " files"), strLit " ", .grp "pattern" dotPlusLazy,
      q (altL (strLit " in") [strLit " within"]), strLit " ",
      .grp "path" dotPlus], .searchFiles),
    -- 16: (analyze|examine)( the)? (files|file types)( in| within)? (?P<directory>.+)
    (rcat [altL (strLit "analyze") [strLit "examine"], q (strLit " the"),
      strLit " ", altL (strLit "files") [strLit "file types"],
      q (altL (strLit " in") [strLit " within"]), strLit " ",
      .grp "directory" dotPlus], .analyzeFileTypes),
    -- 17: (tell me|what|which)( about)?( my)? (devices|peripherals)( are connected| do i have)
    (rcat [altL (strLit "tell me") [strLit "what", strLit "which"], aboutOpt, myOpt,
      strLit " ", altL (strLit "devices") [strLit "peripherals"],
      altL (strLit " are connected") [strLit " do i have"]], .getConnectedDevices),
    -- 18: (tell me|what)( about)?( my)? (monitor|display|screen)s?( info| information)?
    (rcat [tellWhat, aboutOpt, myOpt, strLit " ",
      altL (strLit "monitor") [strLit "display", strLit "screen"],
      q (strLit "s"), infoOpt], .getMonitorInfo),
    -- 19: (tell me|what)( about)?( my)? (printer|printing device)s?( info| information)?
    (rcat [tellWhat, aboutOpt, myOpt, strLit " ",
      altL (strLit "printer") [strLit "printing device"],
      q (strLit "s"), infoOpt], .getPrinterInfo),
    -- 20: (tell me|what)( about)?( my)? (usb|usb device)s?( info| information)?
    (rcat [tellWhat, aboutOpt, myOpt, strLit " ",
      altL (strLit "usb") [strLit "usb device"],
      q (strLit "s"), infoOpt], .getUsbDevices),
    -- 21: (tell me|what)( about)?( my)? (audio|sound|speaker|microphone)( device)?s?( info| information)?
    (rcat [tellWhat, aboutOpt, myOpt, strLit " ",
      altL (strLit "audio") [strLit "sound", strLit "speaker", strLit "microphone"],
      q (strLit " device"), q (strLit "s"), infoOpt], .getAudioDevices),
    -- 22: (tell me|what)( about)?( my)? (bluetooth|bt)( device)?s?( info| information)?
    (rcat [tellWhat, aboutOpt, myOpt, strLit " ",
      altL (strLit "bluetooth") [strLit "bt"],
      q (strLit " device"), q (strLit "s"), infoOpt], .getBluetoothDevices),
    -- 23: (scan|check)( for)? (new|newly connected) devices
    (rcat [altL (strLit "scan") [strLit "check"], q (strLit " for"), strLit " ",
      altL (strLit "new") [strLit "newly connected"],
      strLit " devices"], .scanForNewDevices),
    -- 24-27: open|launch|start|run (?P<app_name>.+?)(\s+with\s+(?P<args>.+))?$
    (appRE "open", .openApplication),
    (appRE "launch", .openApplication),
    (appRE "start", .openApplication),
    (appRE "run", .openApplication),
    -- 28-29: create|make (a )?(?:folder|directory|dir)( called| named)? (?P<dir_path>.+)
    (createDirRE "create", .createDirectory),
    (createDirRE "make", .createDirectory),
    -- 30-31: create|make (a )?(?:folder|directory|dir)$
    (rcat [strLit "create ", q (strLit "a "), dirWordRE, .dollar], .createDirectoryPrompt),
    (rcat [strLit "make ", q (strLit "a "), dirWordRE, .dollar], .createDirectoryPrompt),
    -- 32-33: delete|remove (?:the )?(?:folder|directory|dir)( called| named)? (?P<dir_path>.+)
    (delDirRE "delete", .deleteDirectory),
    (delDirRE "remove", .deleteDirectory),
    -- 34: update (?:the )?(?:folder|directory|dir)( called| named)? (?P<dir_path>.+)
    (delDirRE "update", .updateDirectory),
    -- 35: insert (?:into )?(?:folder|directory|dir)( called| named)? (?P<dir_path>.+)
    (rcat [strLit "insert ", q (strLit "into "), dirWordRE, calledNamedOpt,
      strLit " ", .grp "dir_path" dotPlus], .insertIntoDirectory),
    -- 36-37: create|make (a )?file( called| named)? (?P<file_path>.+)
    (createFileRE "create", .createFile),
    (createFileRE "make", .createFile),
    -- 38-39: delete|remove( the| my)?( file| directory| folder)? (?P<path>.+)
    (delItemRE "delete", .deleteItem),
    (delItemRE "remove", .deleteItem),
    -- 40-41: execute|run( the)? command (?P<command>.+)
    (cmdRE "execute", .executeCommand),
    (cmdRE "run", .executeCommand),
    -- 42: (who|what|when|where|why|how) (is|are|was|were|do|does|did) .+
    (rcat [altL (strLit "who") [strLit "what", strLit "when", strLit "where",
        strLit "why", strLit "how"], strLit " ",
      altL (strLit "is") [strLit "are", strLit "was", strLit "were",
        strLit "do", strLit "does", strLit "did"], strLit " ",
      dotPlus], .answerQuestion),
    -- 43: tell me (about|something about) .+
    (rcat [strLit "tell me ", altL (strLit "about") [strLit "something about"],
      strLit " ", dotPlus], .answerQuestion),
    -- 44: (exit|quit|shutdown|bye|goodbye)
    (altL (strLit "exit") [strLit "quit", strLit "shutdown", strLit "bye",
      strLit "goodbye"], .shutdown),
    -- 45: (who are you|what are you|tell me about yourself)
    (altL (strLit "who are you") [strLit "what are you",
      strLit "tell me about yourself"], .introduceSelf),
    -- 46: (how are you|how do you feel)
    (altL (strLit "how are you") [strLit "how do you feel"], .moodResponse),
    -- 47: (thank you|thanks)
    (altL (strLit "thank you") [strLit "thanks"], .youreWelcome),
    -- 48: (help|what can you do|commands|list commands)
    (altL (strLit "help") [strLit "what can you do", strLit "commands",
      strLit "list commands"], .helpCommand),
    -- 49: (?:enable|turn on) (?P<setting>.+?) (?:data collection|tracking|monitoring)
    (privacyToggleRE (altL (strLit "enable") [strLit "turn on"]),
      .handleEnablePrivacySetting),
    -- 50: (?:disable|turn off) (?P<setting>.+?) (?:data collection|tracking|monitoring)
    (privacyToggleRE (altL (strLit "disable") [strLit "turn off"]),
      .handleDisablePrivacySetting),
    -- 51: show (?:my )?privacy settings
    (rcat [strLit "show ", q (strLit "my "), strLit "privacy settings"],
      .handleShowPrivacySettings),
    -- 52: clear (?:all )?(?:my )?data
    (rcat [strLit "clear ", q (strLit "all "), q (strLit "my "), strLit "data"],
      .handleClearData),
    -- 53: add sensitive directory (?P<directory>.+)
    (rcat [strLit "add sensitive directory ", .grp "directory" dotPlus],
      .handleAddSensitiveDirectory),
    -- 54: show data access (?:log|history)
    (rcat [strLit "show data access ", altL (strLit "log") [strLit "history"]],
      .handleShowDataAccessLog),
    -- 55: (?:is my data secure|how secure is my data)
    (altL (strLit "is my data secure") [strLit "how secure is my data"],
      .handleDataSecurityStatus) ]

/-- The full table: rows 0-55 followed by the catch-all row 56
(.+ bound to `_default_response`, `processor.py` line 161). -/
def commandTable : List (RE × Handler) :=
  mainTable ++ [(dotPlus, Handler.defaultResponse)]

/-! ### The dispatcher -/

/-- One pass of the `for pattern, handler in self.commands.items()` loop:
return the index, handler tag and named captures of the first row whose
regex matches the (already normalised) text. -/
def firstMatchAux : Nat → List (RE × Handler) → List Char →
    Option (Nat × Handler × Caps)
  | _, [], _ => none
  | i, (r, h) :: rest, s =>
    match reMatchCaps r s with
    | some caps => some (i, h, caps)
    | none => firstMatchAux (i + 1) rest s

/-- First matching row of the command table. -/
def firstMatch (s : List Char) : Option (Nat × Handler × Caps) :=
  firstMatchAux 0 commandTable s

/-- The spoken line of the empty-input branch of `process_command`. -/
def didntCatchUtt : String :=
  "I didn" ++ sq ++ "t catch that. Can you please repeat?"

/-- The spoken line of the no-pattern-matched branch of `process_command`. -/
def dontUnderstandUtt : String :=
  "I" ++ sq ++ "m sorry, I don" ++ sq ++ "t understand that command."

/-- The generic utterance of the dispatcher-boundary exception handler. -/
def errorProcessingUtt : String :=
  "I encountered an error while processing that command."

/-- Result of `process_command` up to handler selection: either the
empty-input early return, the no-match fallthrough (each carrying the single
utterance it speaks), or the selection of exactly one row of the table. -/
inductive Outcome where
  | emptyInput : String → Outcome
  | noMatch : String → Outcome
  | invoked : Nat → Handler → Caps → Outcome
deriving DecidableEq, Repr

/-- `CommandProcessor.process_command` (`processor.py` lines 166-195), up to
handler selection.  `if not command_text` is true exactly for the empty
string; otherwise the text is lower-cased and stripped and the table is
scanned in order. -/
def processCommand (s : String) : Outcome :=
  if s = "" then .emptyInput didntCatchUtt
  else
    match firstMatch (normalize s.data) with
    | some (i, h, caps) => .invoked i h caps
    | none => .noMatch dontUnderstandUtt

/-! ### Handler semantics

The handlers relevant to the claims are embedded as functions from their
extracted arguments to a list of observable effects: utterances spoken
through the text-to-speech collaborator, calls into `SystemHandler` /
`SecurityManager`, and consultations of the speech-input collaborator (the
last one has a constructor so that theorems can state it never happens).
Collaborator results (did `open_application` / `execute_command` /
`delete_item` / `clear_all_data` succeed, and with what output) are supplied
by a `Collab` oracle. -/

/-- A privacy-settings value: a boolean toggle or a list of strings
(sensitive directories / excluded file types). -/
inductive PrivVal where
  | flag : Bool → PrivVal
  | strs : List String → PrivVal
deriving DecidableEq, Repr

/-- Observable effects of a handler run. -/
inductive Eff where
  | speak : String → Eff
  | callOpenApplication : String → List String → Eff
  | callExecuteCommand : String → Eff
  | callDeleteItem : String → Eff
  | callClearAllData : Eff
  | callUpdatePrivacy : List (String × PrivVal) → Eff
  | listen : Eff
deriving DecidableEq, Repr

/-- Results returned by the external collaborators. -/
structure Collab where
  openApp : String → List String → Bool
  execCmd : String → Bool × String
  deleteItm : String → Bool
  clearAll : Bool

/-- `String` versions of the character-level Python primitives. -/
def pyStripS (s : String) : String := String.mk (pyStrip s.data)

/-- Python `str.lower` on `String`. -/
def pyLowerS (s : String) : String := String.mk (pyLower s.data)

/-- `CommandProcessor._open_application` (`processor.py` lines 644-676) on
the extracted `app_name` and optional `args` captures.  `args.split()`
splits on whitespace and each piece is stripped. -/
def openApplicationRun (co : Collab) (appName : String) (args? : Option String) :
    List Eff :=
  if appName = "" then
    [.speak ("Sorry, I didn" ++ sq ++ "t catch which application to open.")]
  else
    let app := pyStripS appName
    let appArgs := match args? with
      | some a => (pySplitWs a.data).map (fun w => pyStripS (String.mk w))
      | none => []
    [.speak ("Opening " ++ app ++ "."), .callOpenApplication app appArgs] ++
      (if co.openApp app appArgs then []
       else [.speak ("I couldn" ++ sq ++ "t find or open " ++ app ++
         ". Please check if it" ++ sq ++ "s installed correctly.")])

/-- The denylist of `CommandProcessor._execute_command`
(`processor.py` line 800). -/
def dangerousCommands : List String :=
  ["rm -rf", "deltree", "format", "del /f", "drop database"]

/-- `any(dc in command.lower() for dc in dangerous_commands)`:
case-insensitive substring containment against the denylist. -/
def hasDangerousSub (c : List Char) : Bool :=
  dangerousCommands.any (fun dc => decide (dc.data <:+: pyLower c))

/-- The refusal spoken when the denylist fires. -/
def harmfulUtt : String :=
  "I" ++ sq ++ "m sorry, that command appears to be potentially harmful. " ++
  "For safety reasons, I cannot execute it."

/-- `CommandProcessor._execute_command` (`processor.py` lines 781-822) on the
extracted `command` capture.  The command is stripped, checked against the
denylist, and only then handed to `SystemHandler.execute_command`; on
success an over-long output is truncated to 500 characters. -/
def executeCommandRun (co : Collab) (command : String) : List Eff :=
  if command = "" then
    [.speak ("Sorry, I didn" ++ sq ++ "t catch which command to execute.")]
  else
    let c := pyStripS command
    if hasDangerousSub c.data then [.speak harmfulUtt]
    else
      let (ok, output) := co.execCmd c
      [.speak ("Executing command: " ++ c), .callExecuteCommand c] ++
        (if ok then
          let out :=
            if output ≠ "" ∧ 500 < output.data.length then
              String.mk (output.data.take 500) ++ "... (output truncated)"
            else output
          [.speak "Command executed successfully."] ++
            (if out ≠ "" then [.speak ("Command output: " ++ out)] else [])
        else [.speak ("Command execution failed. Error: " ++ output)])

/-- `CommandProcessor._delete_item` (`processor.py` lines 740-779) on the
extracted `path` capture.  The handler speaks the confirmation question,
then sets `confirmation = True` (the source comment says a real
implementation would listen for yes/no) and deletes unconditionally; no
`listen` effect ever occurs. -/
def deleteItemRun (co : Collab) (path : String) : List Eff :=
  if path = "" then [.speak ("Sorry, I didn" ++ sq ++ "t catch what to delete.")]
  else
    let p := pyStripS path
    [.speak ("Are you sure you want to delete " ++ p ++
      "? Please confirm by saying yes or no.")] ++
      (let confirmation := true
       if confirmation then
         [.speak ("Deleting " ++ p ++ "."), .callDeleteItem p] ++
           (if co.deleteItm p then [.speak (p ++ " has been deleted.")]
            else [.speak ("I couldn" ++ sq ++ "t delete " ++ p ++
              ". Please check that the path exists and try again.")])
       else [.speak "Delete operation cancelled."])

/-- `CommandProcessor._handle_clear_data` (`processor.py` lines 1176-1199).
The confirmation question is spoken, `confirmed = True` is hardcoded, and
`SecurityManager.clear_all_data` runs unconditionally; no `listen` effect. -/
def clearDataRun (co : Collab) : List Eff :=
  [.speak ("Are you sure you want to clear all your stored data? " ++
    "This cannot be undone. Please say yes or no.")] ++
    (let confirmed := true
     if confirmed then
       [.callClearAllData] ++
         (if co.clearAll then
           [.speak ("All your stored data has been cleared, and privacy " ++
             "settings have been reset to defaults.")]
          else [.speak "I had trouble clearing your data. Please try again later."])
     else [.speak "Data clearing operation canceled."])

/-- The phrase-to-settings-key lookup table of
`CommandProcessor._handle_enable_privacy_setting`
(`processor.py` lines 1057-1070). -/
def settingMap : List (String × String) :=
  [("system info", "collect_system_info"),
   ("system information", "collect_system_info"),
   ("usage", "collect_usage_data"),
   ("usage data", "collect_usage_data"),
   ("command history", "store_command_history"),
   ("network", "allow_network_access"),
   ("internet", "allow_network_access"),
   ("file system", "allow_file_system_access"),
   ("file access", "allow_file_system_access"),
   ("file", "allow_file_system_access"),
   ("process", "allow_process_management"),
   ("application", "allow_process_management")]

/-- The utterance enumerating the valid setting names
(`processor.py` line 1074). -/
def unknownSettingUtt (settingName : String) : String :=
  "I" ++ sq ++ "m not familiar with the privacy setting " ++ sq ++ settingName ++
  sq ++ ". Available settings include system info, usage data, command " ++
  "history, network access, file access, and application management."

/-- `CommandProcessor._handle_enable_privacy_setting`
(`processor.py` lines 1038-1082) on the extracted `setting` capture (the
dispatch always supplies it, so the `setting is None` recovery branch is
unreachable here).  The name is stripped and lower-cased, looked up in
`settingMap`; an unknown name produces only the enumeration utterance,
a known one updates the privacy store with the mapped key set to `True`. -/
def enablePrivacyRun (setting : String) : List Eff :=
  let settingName := pyLowerS (pyStripS setting)
  match getAssoc settingMap settingName with
  | none => [.speak (unknownSettingUtt settingName)]
  | some key =>
    [.callUpdatePrivacy [(key, .flag true)],
     .speak ("I" ++ sq ++ "ve enabled " ++ settingName ++ " data collection.")]

/-! ### The dispatcher with the handler-exception boundary

`process_command` wraps the handler call in
`try: handler(...); return / except Exception as e: ...speak(...); return`.
Python's `except Exception` catches exactly the exceptions deriving from
`Exception`; `SystemExit` (raised by `sys.exit(0)` in `_shutdown`,
`processor.py` lines 890-894) derives from `BaseException` only and
propagates.  Handler execution is abstracted by an oracle giving, per
handler and captures, the effects performed before returning or raising and
the class of the exception raised, if any. -/

inductive ExcClass where
  | exceptionClass
  | systemExitClass
deriving DecidableEq, Repr

/-- `CommandProcessor._shutdown`: speaks the farewell, then `sys.exit(0)`
raises `SystemExit`. -/
def shutdownRun : Caps → List Eff × Option ExcClass :=
  fun _ => ([.speak "Shutting down. Goodbye, sir."], some .systemExitClass)

/-- `process_command` including the exception boundary: the selected
handler's behaviour comes from `hexec`; the result is the effect trace of
the call together with the exception class escaping `process_command`, if
any.  The handler is consulted exactly once: a caught exception leads to the
single generic apology and a return, never to a retry. -/
def dispatchRun (hexec : Handler → Caps → List Eff × Option ExcClass)
    (s : String) : List Eff × Option ExcClass :=
  if s = "" then ([.speak didntCatchUtt], none)
  else
    match firstMatch (normalize s.data) with
    | some (_, h, caps) =>
      let r := hexec h caps
      match r.2 with
      | none => (r.1, none)
      | some .exceptionClass => (r.1 ++ [.speak errorProcessingUtt], none)
      | some .systemExitClass => (r.1, some .systemExitClass)
    | none => ([.speak dontUnderstandUtt], none)

end Jarvis

namespace SecurityManager

open Jarvis

/-! ### `SecurityManager` (`security_manager.py`)

Privacy settings are a flat mapping; secure storage is an in-memory mapping
mirrored to a single encrypted file.  The JSON codec and the Fernet cipher
are external collaborators (the spec places them out of scope), so they are
parameters: `dumps`/`loads` serialize a storage mapping to an opaque blob
type `B`, `encrypt`/`decrypt` transform blobs, with their round-trip
contracts stated as hypotheses of the theorems that need them.  The storage
value type `V` is likewise a parameter (the Python dict is heterogeneous). -/

/-- The serializer and cipher collaborators of `SecurityManager`. -/
structure StorageCodec (V B : Type) where
  dumps : List (String × V) → B
  loads : B → Option (List (String × V))
  encrypt : B → B
  decrypt : B → Option B

/-- The security-manager state touched by the storage paths: the in-memory
`secure_storage` dict and the contents of `secure_storage.enc`
(`none` = file does not exist). -/
structure SecStore (V B : Type) where
  storage : List (String × V)
  file : Option B

/-- `SecurityManager._save_secure_storage` (lines 173-202): serialize,
encrypt, overwrite the backing file. -/
def saveBlob {V B : Type} (cc : StorageCodec V B) (data : List (String × V)) : B :=
  cc.encrypt (cc.dumps data)

/-- `SecurityManager.store_secure_data` (lines 290-306):
`self.secure_storage[key] = data` followed by `_save_secure_storage`. -/
def storeSecureData {V B : Type} (cc : StorageCodec V B) (st : SecStore V B)
    (key : String) (v : V) : SecStore V B :=
  let newStorage := setAssoc st.storage key v
  { storage := newStorage, file := some (saveBlob cc newStorage) }

/-- `SecurityManager.get_secure_data` (lines 308-319):
`self.secure_storage.get(key, default)`. -/
def getSecureData {V B : Type} (st : SecStore V B) (key : String) (dflt : V) : V :=
  (getAssoc st.storage key).getD dflt

/-- `SecurityManager._load_secure_storage` (lines 145-171): if the file is
missing, create an empty storage and save it; otherwise decrypt and
deserialize, recreating an empty storage if either step fails. -/
def loadSecureStorage {V B : Type} (cc : StorageCodec V B) (file : Option B) :
    List (String × V) × Option B :=
  match file with
  | none => ([], some (saveBlob cc []))
  | some b =>
    match cc.decrypt b with
    | some plain =>
      match cc.loads plain with
      | some st => (st, some b)
      | none => ([], some (saveBlob cc []))
    | none => ([], some (saveBlob cc []))

/-- A simulated process restart: a fresh `SecurityManager` reloads
`secure_storage.enc` through `_load_secure_storage` with the same key
material (the same cipher). -/
def restart {V B : Type} (cc : StorageCodec V B) (st : SecStore V B) :
    SecStore V B :=
  let r := loadSecureStorage cc st.file
  { storage := r.1, file := r.2 }

/-- An entry of the access log built by `log_data_access`. -/
structure LogEntry where
  timestamp : String
  dataType : String
  description : String
deriving DecidableEq, Repr

/-- `SecurityManager.log_data_access` (lines 406-428): read the
`"access_log"` entry (default `[]`), append the new entry, keep only the
last 1000 entries, store the result back. -/
def logDataAccess {B : Type} (cc : StorageCodec (List LogEntry) B)
    (st : SecStore (List LogEntry) B) (ts dataType desc : String) :
    SecStore (List LogEntry) B :=
  let accessLog := getSecureData st "access_log" []
  let accessLog := accessLog ++ [⟨ts, dataType, desc⟩]
  let accessLog :=
    if 1000 < accessLog.length then accessLog.drop (accessLog.length - 1000)
    else accessLog
  storeSecureData cc st "access_log" accessLog

/-- The valid privacy-settings keys of
`SecurityManager.update_privacy_settings` (lines 223-227). -/
def validSettingKeys : List String :=
  ["collect_system_info", "collect_usage_data", "store_command_history",
   "allow_network_access", "allow_file_system_access",
   "allow_process_management", "sensitive_directories", "excluded_file_types"]

/-- `SecurityManager.update_privacy_settings` (lines 204-252): merge the
update into a copy of the current settings, ignoring keys outside
`validSettingKeys`, and install the result. -/
def updatePrivacySettings (st upd : List (String × PrivVal)) :
    List (String × PrivVal) :=
  upd.foldl
    (fun acc kv => if kv.1 ∈ validSettingKeys then setAssoc acc kv.1 kv.2 else acc)
    st

end SecurityManager

namespace SystemHandler

open Jarvis

/-! ### `SystemHandler._resolve_path` (`system_handler.py` lines 470-495)

Paths are modelled as POSIX-style strings: a path is absolute iff it
starts with a slash, and `Path` joining of a base with a relative remainder
appends with a separator (an empty remainder leaves the base unchanged,
since `pathlib` drops empty parts).  `self.user_home` is `Path.home()` and
`self.desktop` / `self.documents` / `self.downloads` are
`home / "Desktop"` and so on (lines 21-25). -/

/-- Python `str.startswith` on character lists. -/
def startsWithL (pre l : List Char) : Bool := List.isPrefixOf pre l

/-- `str.replace(old, new, 1)` for a single-character pattern. -/
def replaceFirstChar (c : Char) (rep : List Char) : List Char → List Char
  | [] => []
  | x :: xs => if x = c then rep ++ xs else x :: replaceFirstChar c rep xs

/-- `str.lstrip('/\\')`. -/
def lstripSlashes (l : List Char) : List Char :=
  l.dropWhile (fun c => c = '/' || c = '\\')

/-- `Path.is_absolute` in the POSIX model. -/
def pathIsAbs (p : String) : Bool :=
  match p.data with
  | [] => false
  | c :: _ => c = '/'

/-- `Path` division `base / rel` for a relative `rel`. -/
def pathJoin (base rel : String) : String :=
  if rel = "" then base else base ++ "/" ++ rel

/-- `SystemHandler._resolve_path`: a leading `~` is textually replaced by
the home directory; names whose lower-cased form starts with `desktop` /
`documents` / `downloads` are anchored under the matching well-known root
after slicing off the prefix (8 resp. 10 characters) and stripping leading
separators; otherwise an absolute path is returned as is and a relative one
is anchored at the current working directory. -/
def resolvePath (home cwd : String) (p : String) : String :=
  if startsWithL ['~'] p.data then
    String.mk (replaceFirstChar '~' home.data p.data)
  else if startsWithL "desktop".data (pyLower p.data) then
    pathJoin (home ++ "/Desktop") (String.mk (lstripSlashes (p.data.drop 8)))
  else if startsWithL "documents".data (pyLower p.data) then
    pathJoin (home ++ "/Documents") (String.mk (lstripSlashes (p.data.drop 10)))
  else if startsWithL "downloads".data (pyLower p.data) then
    pathJoin (home ++ "/Downloads") (String.mk (lstripSlashes (p.data.drop 10)))
  else if pathIsAbs p then p
  else pathJoin cwd p

end SystemHandler

namespace Jarvis

/-! ### Helper lemmas -/

theorem orElseL_isSome_right {α : Type} (a b : Option α) (hb : b.isSome) :
    (orElseL a b).isSome := by
  cases a <;> simp [orElseL, hb]

theorem getAssoc_setAssoc_self {α : Type} (l : List (String × α)) (n : String)
    (v : α) : getAssoc (setAssoc l n v) n = some v := by
  induction l with
  | nil => simp [setAssoc, getAssoc]
  | cons hd t ih =>
    obtain ⟨m, w⟩ := hd
    by_cases hm : m = n
    · simp [setAssoc, hm, getAssoc]
    · simp [setAssoc, hm, getAssoc, ih]

theorem charOfNat_toNat {n : Nat} (h : n < 55296) : (Char.ofNat n).toNat = n := by
  have hv : n.isValidChar := Or.inl h
  simp [Char.ofNat, hv, Char.toNat, Char.ofNatAux, UInt32.toNat]

theorem isPySpace_eq_false_of_ge (x : Char) (h : 65 ≤ x.toNat) :
    isPySpace x = false := by
  simp only [isPySpace, Bool.or_eq_false_iff, decide_eq_false_iff_not]
  refine ⟨⟨⟨⟨⟨?_, ?_⟩, ?_⟩, ?_⟩, ?_⟩, ?_⟩ <;> intro he <;> subst he <;>
    revert h <;> decide

theorem isPySpace_pyLowerChar (x : Char) :
    isPySpace (pyLowerChar x) = isPySpace x := by
  unfold pyLowerChar
  split
  case isTrue h =>
    have h1 : isPySpace x = false := isPySpace_eq_false_of_ge x h.1
    have h2 : (Char.ofNat (x.toNat + 32)).toNat = x.toNat + 32 :=
      charOfNat_toNat (by omega)
    have h3 : isPySpace (Char.ofNat (x.toNat + 32)) = false :=
      isPySpace_eq_false_of_ge _ (by omega)
    rw [h1, h3]
  case isFalse h => rfl

theorem dropWhile_pyLower (l : List Char) :
    (pyLower l).dropWhile isPySpace = pyLower (l.dropWhile isPySpace) := by
  induction l with
  | nil => rfl
  | cons x xs ih =>
    simp only [pyLower, List.map_cons, List.dropWhile_cons,
      isPySpace_pyLowerChar]
    split
    · simpa [pyLower] using ih
    · rfl

theorem reverse_pyLower (l : List Char) :
    (pyLower l).reverse = pyLower l.reverse := by
  simp [pyLower, List.map_reverse]

theorem dropTrailingWs_pyLower (l : List Char) :
    dropTrailingWs (pyLower l) = pyLower (dropTrailingWs l) := by
  unfold dropTrailingWs
  rw [reverse_pyLower, dropWhile_pyLower, ← reverse_pyLower]

theorem pyStrip_pyLower (l : List Char) :
    pyStrip (pyLower l) = pyLower (pyStrip l) := by
  unfold pyStrip
  rw [dropWhile_pyLower, dropTrailingWs_pyLower]

theorem dropWhile_head_false (p : Char → Bool) :
    ∀ (l : List Char) (c : Char) (t : List Char),
      l.dropWhile p = c :: t → p c = false := by
  intro l
  induction l with
  | nil => intro c t h; simp [List.dropWhile] at h
  | cons x xs ih =>
    intro c t h
    by_cases hp : p x
    · rw [List.dropWhile_cons] at h
      simp only [hp, if_true] at h
      exact ih c t h
    · rw [List.dropWhile_cons] at h
      simp only [hp, if_false] at h
      obtain ⟨rfl, -⟩ := List.cons.inj h
      exact Bool.eq_false_iff.mpr hp

theorem dropTrailingWs_prefix (l : List Char) : dropTrailingWs l <+: l := by
  have h1 : l.reverse.dropWhile isPySpace <:+ l.reverse :=
    List.dropWhile_suffix _
  have h2 : (dropTrailingWs l).reverse = l.reverse.dropWhile isPySpace := by
    simp [dropTrailingWs]
  rw [← List.reverse_suffix, h2]
  exact h1

theorem normalize_head_not_space (l : List Char) (c : Char) (t : List Char)
    (h : normalize l = c :: t) : isPySpace c = false := by
  unfold normalize pyStrip at h
  have hpre := dropTrailingWs_prefix ((pyLower l).dropWhile isPySpace)
  rw [h] at hpre
  obtain ⟨r, hr⟩ := hpre
  rw [List.cons_append] at hr
  exact dropWhile_head_false isPySpace (pyLower l) c (t ++ r) hr.symm

theorem normalize_of_all_space (l : List Char)
    (h : ∀ c ∈ l, isPySpace c = true) : normalize l = [] := by
  have hm : ∀ c ∈ pyLower l, isPySpace c = true := by
    intro c hc
    obtain ⟨x, hx, rfl⟩ := List.mem_map.mp hc
    rw [isPySpace_pyLowerChar]
    exact h x hx
  unfold normalize pyStrip
  rw [List.dropWhile_eq_nil_iff.mpr fun x hx => hm x hx]
  rfl

theorem mrun_dotPlus_isSome (f : Nat) (c : Char) (rest : List Char)
    (caps : Caps) (k : Caps → List Char → Option (Caps × List Char))
    (hc : c ≠ '\n') (hk : ∀ cp sp, (k cp sp).isSome) :
    (mrun (f + 3) dotPlus (c :: rest) caps k).isSome := by
  show (mrun ((f + 2) + 1) (.seq .dot (.star false .dot)) (c :: rest) caps k).isSome
  rw [mrun]
  rw [show f + 2 = (f + 1) + 1 from rfl, mrun]
  rw [if_neg hc]
  rw [show f + 1 + 1 = (f + 1) + 1 from rfl, mrun]
  simp only [Bool.false_eq_true, if_false]
  exact orElseL_isSome_right _ _ (hk caps rest)

theorem reMatchCaps_dotPlus_isSome (c : Char) (rest : List Char)
    (hc : c ≠ '\n') : (reMatchCaps dotPlus (c :: rest)).isSome := by
  unfold reMatchCaps
  obtain ⟨g, hg⟩ : ∃ g, bigFuel dotPlus (c :: rest) = g + 3 :=
    ⟨bigFuel dotPlus (c :: rest) - 3, by unfold bigFuel; omega⟩
  rw [hg]
  have h := mrun_dotPlus_isSome g c rest [] (fun caps s2 => some (caps, s2)) hc
    (by intro cp sp; simp)
  cases hm : mrun (g + 3) dotPlus (c :: rest) [] (fun caps s2 => some (caps, s2)) with
  | none => rw [hm] at h; simp at h
  | some v => obtain ⟨cp, sp⟩ := v; simp [hm]

theorem firstMatchAux_isSome_append (pre : List (RE × Handler)) (r : RE)
    (h : Handler) (s : List Char) (hm : (reMatchCaps r s).isSome) :
    ∀ i, (firstMatchAux i (pre ++ [(r, h)]) s).isSome := by
  induction pre with
  | nil =>
    intro i
    simp only [List.nil_append, firstMatchAux]
    cases hr : reMatchCaps r s with
    | none => rw [hr] at hm; simp at hm
    | some caps => simp
  | cons a as ih =>
    intro i
    obtain ⟨ar, ah⟩ := a
    simp only [List.cons_append, firstMatchAux]
    cases hr : reMatchCaps ar s with
    | none => exact ih (i + 1)
    | some caps => simp

/-- For every input whose normalised form is non-empty, some row of the
table matches (the catch-all row at worst), so the dispatcher selects a
handler. -/
theorem firstMatch_isSome_of_normalized (s : List Char)
    (hn : normalize s ≠ []) : (firstMatch (normalize s)).isSome := by
  obtain ⟨c, t, hct⟩ : ∃ c t, normalize s = c :: t := by
    cases hcase : normalize s with
    | nil => exact absurd hcase hn
    | cons c t => exact ⟨c, t, rfl⟩
  have hsp := normalize_head_not_space s c t hct
  have hcn : c ≠ '\n' := by
    intro he
    subst he
    simp [isPySpace] at hsp
  have hcatch : (reMatchCaps dotPlus (normalize s)).isSome := by
    rw [hct]
    exact reMatchCaps_dotPlus_isSome c t hcn
  unfold firstMatch commandTable
  exact firstMatchAux_isSome_append mainTable dotPlus .defaultResponse
    (normalize s) hcatch 0

/-! ### Substring containment survives stripping

Needed for the denylist claim: if the command contains a denylisted
substring (whose first and last characters are not whitespace), the
stripped command still contains it. -/

theorem infix_dropWhile_of_head (d : Char) (ds l : List Char)
    (hd : isPySpace d = false) (h : (d :: ds) <:+: l) :
    (d :: ds) <:+: l.dropWhile isPySpace := by
  induction l with
  | nil => simp at h
  | cons x xs ih =>
    by_cases hp : isPySpace x
    · rw [List.dropWhile_cons]
      simp only [hp, if_true]
      rcases List.infix_cons_iff.mp h with hpre | hinf
      · obtain ⟨r, hr⟩ := hpre
        rw [List.cons_append] at hr
        obtain ⟨rfl, -⟩ := List.cons.inj hr.symm
        rw [hp] at hd
        exact absurd hd (by simp)
      · exact ih hinf
    · rw [List.dropWhile_cons]
      simp only [hp, if_false]
      exact h

theorem infix_dropTrailingWs (dc l : List Char) (e : Char) (es : List Char)
    (hrev : dc.reverse = e :: es) (he : isPySpace e = false)
    (h : dc <:+: l) : dc <:+: dropTrailingWs l := by
  have h2 : (e :: es) <:+: l.reverse := by
    rw [← hrev]
    exact List.reverse_infix.mpr h
  have h3 := infix_dropWhile_of_head e es l.reverse he h2
  have h4 : (dropTrailingWs l).reverse = l.reverse.dropWhile isPySpace := by
    simp [dropTrailingWs]
  rw [← List.reverse_infix, h4, hrev]
  exact h3

theorem infix_pyStrip (dc l : List Char) (h : dc <:+: l)
    (hcons : ∃ d ds, dc = d :: ds ∧ isPySpace d = false)
    (hrev : ∃ e es, dc.reverse = e :: es ∧ isPySpace e = false) :
    dc <:+: pyStrip l := by
  obtain ⟨d, ds, rfl, hd⟩ := hcons
  obtain ⟨e, es, hrev, he⟩ := hrev
  exact infix_dropTrailingWs _ _ e es hrev he
    (infix_dropWhile_of_head d ds l hd h)

/-- The denylist check survives the `command.strip()` the handler performs:
each denylisted string is non-empty and starts and ends with a
non-whitespace character. -/
theorem hasDangerousSub_pyStrip (l : List Char)
    (h : hasDangerousSub l = true) : hasDangerousSub (pyStrip l) = true := by
  simp only [hasDangerousSub, List.any_eq_true, decide_eq_true_eq] at h ⊢
  obtain ⟨dc, hmem, hinf⟩ := h
  refine ⟨dc, hmem, ?_⟩
  rw [← pyStrip_pyLower]
  simp only [dangerousCommands, List.mem_cons, List.not_mem_nil, or_false]
    at hmem
  rcases hmem with rfl | rfl | rfl | rfl | rfl
  · exact infix_pyStrip _ _ hinf ⟨'r', "m -rf".data, by decide, by decide⟩
      ⟨'f', "r- mr".data, by decide, by decide⟩
  · exact infix_pyStrip _ _ hinf ⟨'d', "eltree".data, by decide, by decide⟩
      ⟨'e', "ertled".data, by decide, by decide⟩
  · exact infix_pyStrip _ _ hinf ⟨'f', "ormat".data, by decide, by decide⟩
      ⟨'t', "amrof".data, by decide, by decide⟩
  · exact infix_pyStrip _ _ hinf ⟨'d', "el /f".data, by decide, by decide⟩
      ⟨'f', "/ led".data, by decide, by decide⟩
  · exact infix_pyStrip _ _ hinf ⟨'d', "rop database".data, by decide, by decide⟩
      ⟨'e', "sabatad pord".data, by decide, by decide⟩

end Jarvis

namespace SystemHandler

open Jarvis

/-! ### Path lemmas -/

theorem pathIsAbs_exists (a : String) (h : pathIsAbs a = true) :
    ∃ r, a.data = '/' :: r := by
  unfold pathIsAbs at h
  cases hd : a.data with
  | nil => rw [hd] at h; simp at h
  | cons c t =>
    rw [hd] at h
    simp only [decide_eq_true_eq] at h
    subst h
    exact ⟨t, rfl⟩

theorem pathIsAbs_mk_append (home : String) (t : List Char)
    (h : pathIsAbs home = true) :
    pathIsAbs (String.mk (home.data ++ t)) = true := by
  obtain ⟨r, hr⟩ := pathIsAbs_exists home h
  unfold pathIsAbs
  rw [show (String.mk (home.data ++ t)).data = home.data ++ t from rfl, hr]
  simp

theorem pathIsAbs_append (a b : String) (h : pathIsAbs a = true) :
    pathIsAbs (a ++ b) = true := by
  obtain ⟨r, hr⟩ := pathIsAbs_exists a h
  unfold pathIsAbs
  rw [show (a ++ b).data = a.data ++ b.data from rfl, hr]
  simp

theorem pathIsAbs_pathJoin (base r : String) (h : pathIsAbs base = true) :
    pathIsAbs (pathJoin base r) = true := by
  unfold pathJoin
  split
  · exact h
  · exact pathIsAbs_append _ _ (pathIsAbs_append _ _ h)

theorem prefix_pathJoin (base r : String) :
    base.data <+: (pathJoin base r).data := by
  unfold pathJoin
  split
  · exact List.prefix_refl _
  · show base.data <+: (base ++ "/" ++ r).data
    rw [show (base ++ "/" ++ r).data = (base.data ++ "/".data) ++ r.data from rfl,
      List.append_assoc]
    exact List.prefix_append _ _

theorem startsWith_cons (c : Char) (l : List Char)
    (h : startsWithL [c] l = true) : ∃ t, l = c :: t := by
  unfold startsWithL at h
  obtain ⟨t, ht⟩ := List.isPrefixOf_iff_prefix.mp h
  exact ⟨t, by rw [← ht]; rfl⟩

theorem replaceFirstChar_cons (c : Char) (rep t : List Char) :
    replaceFirstChar c rep (c :: t) = rep ++ t := by
  simp [replaceFirstChar]

/-- C9: `_resolve_path` always produces an absolute path (given absolute
`home` and `cwd`), and does so by the advertised case split: a leading `~`
is replaced by the home directory, a `desktop`/`documents`/`downloads`
prefix (case-insensitively) anchors the result under the matching
well-known root, an absolute input is returned unchanged, and anything else
is anchored at the current working directory. -/
theorem c9_resolve_path_invariant (home cwd : String)
    (hh : pathIsAbs home = true) (hc : pathIsAbs cwd = true) :
    (∀ p, pathIsAbs (resolvePath home cwd p) = true) ∧
    (∀ p, startsWithL ['~'] p.data = true →
      (resolvePath home cwd p).data = home.data ++ p.data.tail) ∧
    (∀ p, startsWithL ['~'] p.data = false →
      startsWithL "desktop".data (pyLower p.data) = true →
      (home ++ "/Desktop").data <+: (resolvePath home cwd p).data) ∧
    (∀ p, startsWithL ['~'] p.data = false →
      startsWithL "desktop".data (pyLower p.data) = false →
      startsWithL "documents".data (pyLower p.data) = true →
      (home ++ "/Documents").data <+: (resolvePath home cwd p).data) ∧
    (∀ p, startsWithL ['~'] p.data = false →
      startsWithL "desktop".data (pyLower p.data) = false →
      startsWithL "documents".data (pyLower p.data) = false →
      startsWithL "downloads".data (pyLower p.data) = true →
      (home ++ "/Downloads").data <+: (resolvePath home cwd p).data) ∧
    (∀ p, startsWithL ['~'] p.data = false →
      startsWithL "desktop".data (pyLower p.data) = false →
      startsWithL "documents".data (pyLower p.data) = false →
      startsWithL "downloads".data (pyLower p.data) = false →
      pathIsAbs p = true → resolvePath home cwd p = p) ∧
    (∀ p, startsWithL ['~'] p.data = false →
      startsWithL "desktop".data (pyLower p.data) = false →
      startsWithL "documents".data (pyLower p.data) = false →
      startsWithL "downloads".data (pyLower p.data) = false →
      pathIsAbs p = false → cwd.data <+: (resolvePath home cwd p).data) := by
  refine ⟨?_, ?_, ?_, ?_, ?_, ?_, ?_⟩
  · intro p
    by_cases h1 : startsWithL ['~'] p.data = true
    · obtain ⟨t, ht⟩ := startsWith_cons '~' p.data h1
      simp only [resolvePath, h1, if_true]
      rw [ht, replaceFirstChar_cons]
      exact pathIsAbs_mk_append home (t := t) hh
    · by_cases h2 : startsWithL "desktop".data (pyLower p.data) = true
      · simp only [resolvePath, h1, h2, Bool.false_eq_true, eq_self_iff_true, if_true, if_false]
        exact pathIsAbs_pathJoin _ _ (pathIsAbs_append home "/Desktop" hh)
      · by_cases h3 : startsWithL "documents".data (pyLower p.data) = true
        · simp only [resolvePath, h1, h2, h3, Bool.false_eq_true, eq_self_iff_true, if_true, if_false]
          exact pathIsAbs_pathJoin _ _ (pathIsAbs_append home "/Documents" hh)
        · by_cases h4 : startsWithL "downloads".data (pyLower p.data) = true
          · simp only [resolvePath, h1, h2, h3, h4, Bool.false_eq_true, eq_self_iff_true, if_true, if_false]
            exact pathIsAbs_pathJoin _ _ (pathIsAbs_append home "/Downloads" hh)
          · by_cases h5 : pathIsAbs p = true
            · simp only [resolvePath, h1, h2, h3, h4, h5, Bool.false_eq_true, eq_self_iff_true, if_true, if_false]
            · simp only [resolvePath, h1, h2, h3, h4, h5, Bool.false_eq_true, eq_self_iff_true, if_true, if_false]
              exact pathIsAbs_pathJoin _ _ hc
  · intro p h1
    obtain ⟨t, ht⟩ := startsWith_cons '~' p.data h1
    simp only [resolvePath, h1, if_true]
    rw [ht, replaceFirstChar_cons]
    simp [ht]
  · intro p h1 h2
    simp only [resolvePath, h1, h2, Bool.false_eq_true, eq_self_iff_true, if_true, if_false]
    exact prefix_pathJoin _ _
  · intro p h1 h2 h3
    simp only [resolvePath, h1, h2, h3, Bool.false_eq_true, eq_self_iff_true, if_true, if_false]
    exact prefix_pathJoin _ _
  · intro p h1 h2 h3 h4
    simp only [resolvePath, h1, h2, h3, h4, Bool.false_eq_true, eq_self_iff_true, if_true, if_false]
    exact prefix_pathJoin _ _
  · intro p h1 h2 h3 h4 h5
    simp only [resolvePath, h1, h2, h3, h4, h5, Bool.false_eq_true, eq_self_iff_true, if_true, if_false]
  · intro p h1 h2 h3 h4 h5
    simp only [resolvePath, h1, h2, h3, h4, h5, Bool.false_eq_true, eq_self_iff_true, if_true, if_false]
    exact prefix_pathJoin _ _

/-- Witness for C9 at a concrete home, working directory and input. -/
theorem c9_resolve_path_witness :
    pathIsAbs "/home/u" = true ∧ pathIsAbs "/srv" = true ∧
    pathIsAbs (resolvePath "/home/u" "/srv" "desktop/report.txt") = true :=
  ⟨by decide, by decide,
    (c9_resolve_path_invariant "/home/u" "/srv" (by decide) (by decide)).1
      "desktop/report.txt"⟩

end SystemHandler

namespace SecurityManager

open Jarvis

/-- C6: secure-storage round-trip.  Writing a value with
`store_secure_data` and reading the same key back with `get_secure_data`
returns the value, both directly and after a simulated process restart that
reloads the encrypted backing file through `_load_secure_storage` with the
same key material.  The Fernet cipher and the JSON serializer are external
collaborators; their round-trip contracts (`decrypt (encrypt b) = b` for the
same key, `loads (dumps st) = st` for serializable data) are the stated
hypotheses. -/
theorem c6_secure_storage_roundtrip {V B : Type} (cc : StorageCodec V B)
    (hdec : ∀ b, cc.decrypt (cc.encrypt b) = some b)
    (hser : ∀ st, cc.loads (cc.dumps st) = some st)
    (st : SecStore V B) (key : String) (v dflt : V) :
    getSecureData (storeSecureData cc st key v) key dflt = v ∧
    getSecureData (restart cc (storeSecureData cc st key v)) key dflt = v := by
  constructor
  · simp [storeSecureData, getSecureData, getAssoc_setAssoc_self]
  · simp [storeSecureData, restart, loadSecureStorage, saveBlob, hdec, hser,
      getSecureData, getAssoc_setAssoc_self]

/-- A trivially invertible codec instantiation used by the witness. -/
def idCodec : StorageCodec Nat (List (String × Nat)) :=
  ⟨id, some, id, some⟩

/-- Witness for C6 at concrete codec, store, key and value. -/
theorem c6_roundtrip_witness :
    getSecureData (storeSecureData idCodec ⟨[], none⟩ "token" 7) "token" 0 = 7 ∧
    getSecureData (restart idCodec (storeSecureData idCodec ⟨[], none⟩ "token" 7))
      "token" 0 = 7 :=
  c6_secure_storage_roundtrip idCodec (fun _ => rfl) (fun _ => rfl)
    ⟨[], none⟩ "token" 7 0

/-- C10: after every `log_data_access` call the `"access_log"` list held in
secure storage has at most 1000 entries, and what is kept is a suffix of
the old log with the new entry appended - the most recent entries in their
original order. -/
theorem c10_access_log_bounded {B : Type} (cc : StorageCodec (List LogEntry) B)
    (st : SecStore (List LogEntry) B) (ts dataType desc : String) :
    (getSecureData (logDataAccess cc st ts dataType desc) "access_log" []).length
      ≤ 1000 ∧
    getSecureData (logDataAccess cc st ts dataType desc) "access_log" [] <:+
      getSecureData st "access_log" [] ++ [⟨ts, dataType, desc⟩] := by
  have hget : getSecureData (logDataAccess cc st ts dataType desc)
      "access_log" [] =
      (let l := getSecureData st "access_log" [] ++ [⟨ts, dataType, desc⟩]
       if 1000 < l.length then l.drop (l.length - 1000) else l) := by
    simp [logDataAccess, storeSecureData, getSecureData, getAssoc_setAssoc_self]
  rw [hget]
  generalize getSecureData st "access_log" [] ++
    [({ timestamp := ts, dataType := dataType, description := desc } : LogEntry)] = L
  constructor
  · show (if 1000 < L.length then L.drop (L.length - 1000) else L).length ≤ 1000
    split
    · next hlen => rw [List.length_drop]; omega
    · next hlen => omega
  · show (if 1000 < L.length then L.drop (L.length - 1000) else L) <:+ L
    split
    · exact List.drop_suffix _ _
    · exact List.suffix_refl _

end SecurityManager

namespace Jarvis

/-- A concrete collaborator instantiation used by witnesses. -/
def collabW : Collab :=
  ⟨fun _ _ => true, fun _ => (true, "ok"), fun _ => true, true⟩

/-- C1: evaluating the dispatcher at the failing input
"run command rm -rf /".  The table row `run (?P<app_name>...)` (index 27,
bound to `_open_application`) precedes the row
`run( the)? command (?P<command>...)` (index 41, bound to
`_execute_command`) and matches the whole input, so the denylist check
inside `_execute_command` is never reached - even though the dedicated
run-command row exists and would match (second conjunct), and even though
the in-source help text advertises "Run command dir" as shell execution.
`SystemHandler.execute_command` is still never invoked on this input, and
no refusal is spoken: the input is treated as a request to open an
application named "command rm -rf /". -/
theorem c1_run_command_bypasses_denylist :
    processCommand "run command rm -rf /" =
      .invoked 27 .openApplication [("app_name", "command rm -rf /".data)] ∧
    (reMatchCaps (cmdRE "run") (normalize "run command rm -rf /".data)).isSome
      = true ∧
    ∀ co : Collab,
      (∀ cmd, Eff.callExecuteCommand cmd ∉
        openApplicationRun co "command rm -rf /" none) ∧
      Eff.speak harmfulUtt ∉ openApplicationRun co "command rm -rf /" none := by
  refine ⟨by decide, by decide, ?_⟩
  intro co
  have happ : pyStripS "command rm -rf /" = "command rm -rf /" := by decide
  have hne : ¬(("command rm -rf /" : String) = "") := by decide
  refine ⟨?_, ?_⟩
  · intro cmd
    cases h : co.openApp "command rm -rf /" [] <;>
      simp [openApplicationRun, happ, hne, h]
  · cases h : co.openApp "command rm -rf /" [] <;>
      simp only [openApplicationRun, happ, hne, h] <;> decide

/-- C2: both destructive handlers cited by the claim speak the confirmation
question first, then perform the destructive collaborator call
unconditionally (the confirmation is the hardcoded constant `True`), and
never consult the speech-input collaborator. -/
theorem c2_confirmation_stub :
    (∀ (co : Collab) (path : String), path ≠ "" →
      (deleteItemRun co path).head? = some (.speak
        ("Are you sure you want to delete " ++ pyStripS path ++
          "? Please confirm by saying yes or no.")) ∧
      Eff.callDeleteItem (pyStripS path) ∈ deleteItemRun co path ∧
      Eff.listen ∉ deleteItemRun co path) ∧
    (∀ co : Collab,
      (clearDataRun co).head? = some (.speak
        ("Are you sure you want to clear all your stored data? " ++
          "This cannot be undone. Please say yes or no.")) ∧
      Eff.callClearAllData ∈ clearDataRun co ∧
      Eff.listen ∉ clearDataRun co) := by
  constructor
  · intro co path hp
    cases h : co.deleteItm (pyStripS path) <;>
      simp [deleteItemRun, hp, h]
  · intro co
    cases h : co.clearAll <;> simp [clearDataRun, h]

/-- Witness for C2 at a concrete path and collaborator. -/
theorem c2_confirmation_stub_witness :
    ("temp.txt" : String) ≠ "" ∧
    Eff.callDeleteItem (pyStripS "temp.txt") ∈ deleteItemRun collabW "temp.txt" ∧
    Eff.listen ∉ deleteItemRun collabW "temp.txt" ∧
    Eff.callClearAllData ∈ clearDataRun collabW :=
  ⟨by decide,
    (c2_confirmation_stub.1 collabW "temp.txt" (by decide)).2.1,
    (c2_confirmation_stub.1 collabW "temp.txt" (by decide)).2.2,
    (c2_confirmation_stub.2 collabW).2.1⟩

/-- C3 counterexample: the whitespace-only input " " is non-empty, so it
passes the `if not command_text` guard, normalises to the empty string,
matches no table row (the catch-all `.+` needs a character), and produces
the no-match utterance - not the "didn't catch that" utterance the claim
requires for whitespace-only inputs. -/
theorem c3_whitespace_counterexample :
    processCommand " " = Outcome.noMatch dontUnderstandUtt ∧
    dontUnderstandUtt ≠ didntCatchUtt := by decide

/-- C3 (amended): for the empty input no handler fires and exactly the one
"didn't catch that" utterance is produced; for a whitespace-only non-empty
input no handler fires either, but the single utterance produced is the
no-match "I don't understand" message. -/
theorem c3_empty_and_whitespace_inputs (s : String)
    (h : ∀ c ∈ s.data, isPySpace c = true) :
    processCommand s = if s = "" then Outcome.emptyInput didntCatchUtt
      else Outcome.noMatch dontUnderstandUtt := by
  by_cases hs : s = ""
  · simp [processCommand, hs]
  · have hnorm : normalize s.data = [] := normalize_of_all_space _ h
    have hfm : firstMatch ([] : List Char) = none := by decide
    simp [processCommand, hs, hnorm, hfm]

/-- Witness for C3 at a concrete whitespace-only input. -/
theorem c3_whitespace_witness :
    (∀ c ∈ ("  " : String).data, isPySpace c = true) ∧
    processCommand "  " = Outcome.noMatch dontUnderstandUtt := by
  refine ⟨by decide, ?_⟩
  rw [c3_empty_and_whitespace_inputs "  " (by decide)]
  decide

/-- C4 counterexample: " " is a non-empty input string for which the
dispatcher selects no rule and invokes no handler - the no-match
fallthrough is reached, refuting both the totality part and the
"catch-all matches any non-empty string" part of the claim. -/
theorem c4_whitespace_fallthrough_counterexample :
    (" " : String) ≠ "" ∧
    processCommand " " = Outcome.noMatch dontUnderstandUtt := by decide

/-- C4 (amended): the catch-all row is last, and for every input whose
normalised form (lower-cased, stripped) is non-empty the dispatcher selects
exactly one rule and invokes exactly one handler, so the no-match
fallthrough is unreachable for such inputs.  (For non-empty inputs that are
whitespace-only, normalisation yields the empty string and the fallthrough
fires.) -/
theorem c4_dispatch_total_after_normalization :
    commandTable.getLast? = some (dotPlus, Handler.defaultResponse) ∧
    ∀ s : String, normalize s.data ≠ [] →
      ∃ i h caps, processCommand s = Outcome.invoked i h caps := by
  constructor
  · rw [commandTable]
    exact List.getLast?_concat _
  · intro s hn
    have hs : s ≠ "" := by
      intro h
      subst h
      exact hn rfl
    have hsome := firstMatch_isSome_of_normalized s.data hn
    obtain ⟨⟨i, h, caps⟩, hv⟩ := Option.isSome_iff_exists.mp hsome
    exact ⟨i, h, caps, by simp [processCommand, hs, hv]⟩

/-- Witness for C4 at a concrete input. -/
theorem c4_dispatch_total_witness :
    normalize ("hello" : String).data ≠ [] ∧
    ∃ i h caps, processCommand "hello" = Outcome.invoked i h caps :=
  ⟨by decide, c4_dispatch_total_after_normalization.2 "hello" (by decide)⟩

/-- C5: the input "enable network data collection" dispatches to the
enable-privacy handler with captured setting "network"; the lookup table
maps "network" to the `allow_network_access` key; the handler updates the
privacy store with that key set to true; after the update the store holds
`true` at that key; and for every captured name outside the lookup table
the handler produces only the utterance enumerating the valid setting
names - no update effect, so the store is left unmodified. -/
theorem c5_enable_network_data_collection :
    processCommand "enable network data collection" =
      .invoked 49 .handleEnablePrivacySetting [("setting", "network".data)] ∧
    getAssoc settingMap "network" = some "allow_network_access" ∧
    enablePrivacyRun "network" =
      [.callUpdatePrivacy [("allow_network_access", .flag true)],
       .speak ("I" ++ sq ++ "ve enabled network data collection.")] ∧
    (∀ st : List (String × PrivVal),
      getAssoc (SecurityManager.updatePrivacySettings st
          [("allow_network_access", .flag true)]) "allow_network_access" =
        some (.flag true)) ∧
    (∀ setting : String,
      getAssoc settingMap (pyLowerS (pyStripS setting)) = none →
      enablePrivacyRun setting =
        [.speak (unknownSettingUtt (pyLowerS (pyStripS setting)))]) := by
  refine ⟨by decide, by decide, by decide, ?_, ?_⟩
  · intro st
    have hmem : ("allow_network_access" : String) ∈
        SecurityManager.validSettingKeys := by decide
    simp [SecurityManager.updatePrivacySettings, hmem, getAssoc_setAssoc_self]
  · intro setting h
    simp [enablePrivacyRun, h]

/-- Witness for C5 at a concrete store and a concrete unknown setting. -/
theorem c5_enable_network_witness :
    getAssoc (SecurityManager.updatePrivacySettings []
        [("allow_network_access", .flag true)]) "allow_network_access" =
      some (.flag true) ∧
    getAssoc settingMap (pyLowerS (pyStripS "telemetry")) = none ∧
    enablePrivacyRun "telemetry" =
      [.speak (unknownSettingUtt (pyLowerS (pyStripS "telemetry")))] :=
  ⟨c5_enable_network_data_collection.2.2.2.1 [],
   by decide,
   c5_enable_network_data_collection.2.2.2.2 "telemetry" (by decide)⟩

/-- C7 (amended): if the handler selected for a (non-empty) input raises an
exception deriving from `Exception`, the dispatcher catches it at the
`except Exception` boundary, appends exactly the one generic
error-processing utterance to whatever the handler spoke, and returns;
nothing escapes `process_command` and the handler is consulted exactly
once (the structure of `dispatchRun` performs a single oracle call with no
retry).  `SystemExit` is not covered: see the counterexample. -/
theorem c7_handler_exception_caught
    (hexec : Handler → Caps → List Eff × Option ExcClass) (s : String)
    (i : Nat) (h : Handler) (caps : Caps) (effs : List Eff) (hs : s ≠ "")
    (hm : firstMatch (normalize s.data) = some (i, h, caps))
    (hx : hexec h caps = (effs, some .exceptionClass)) :
    dispatchRun hexec s = (effs ++ [.speak errorProcessingUtt], none) := by
  simp [dispatchRun, hs, hm, hx]

/-- Witness for C7 at a concrete input and a concrete raising handler. -/
theorem c7_handler_exception_witness :
    ("hello" : String) ≠ "" ∧
    firstMatch (normalize ("hello" : String).data) =
      some (56, .defaultResponse, []) ∧
    dispatchRun (fun _ _ => ([], some .exceptionClass)) "hello" =
      ([] ++ [.speak errorProcessingUtt], none) :=
  ⟨by decide, by decide,
    c7_handler_exception_caught (fun _ _ => ([], some .exceptionClass))
      "hello" 56 .defaultResponse [] [] (by decide) (by decide) rfl⟩

/-- The oracle implementing `_shutdown` (the only handler the dispatch of
"exit" consults); every other handler entry is irrelevant to the
counterexample. -/
def hexecShutdownOnly : Handler → Caps → List Eff × Option ExcClass :=
  fun h caps =>
    match h with
    | .shutdown => shutdownRun caps
    | _ => ([], none)

/-- C7 counterexample: the input "exit" selects `_shutdown`, whose
`sys.exit(0)` raises `SystemExit`; `except Exception` does not catch it, so
the failure escapes `process_command` (and no generic error utterance is
spoken), contradicting "the failure is never propagated out of
process_command ... for any reason". -/
theorem c7_systemexit_propagates_counterexample :
    processCommand "exit" = Outcome.invoked 44 .shutdown [] ∧
    dispatchRun hexecShutdownOnly "exit" =
      ([.speak "Shutting down. Goodbye, sir."], some .systemExitClass) ∧
    (dispatchRun hexecShutdownOnly "exit").2 ≠ none := by decide

/-- C8: any command string reaching `_execute_command` that contains a
denylisted substring (case-insensitively) produces exactly the refusal
utterance, and `SystemHandler.execute_command` is never called. -/
theorem c8_denylist_blocks_shell (co : Collab) (command : String)
    (h : hasDangerousSub command.data = true) :
    executeCommandRun co command = [.speak harmfulUtt] ∧
    ∀ cmd, Eff.callExecuteCommand cmd ∉ executeCommandRun co command := by
  have hne : command ≠ "" := by
    intro he
    subst he
    exact absurd h (by decide)
  have hs : hasDangerousSub (pyStripS command).data = true := by
    show hasDangerousSub (pyStrip command.data) = true
    exact hasDangerousSub_pyStrip _ h
  constructor
  · simp [executeCommandRun, hne, hs]
  · intro cmd
    simp [executeCommandRun, hne, hs]

/-- Witness for C8 at a concrete mixed-case dangerous command. -/
theorem c8_denylist_witness :
    hasDangerousSub ("RM -rf /tmp" : String).data = true ∧
    executeCommandRun collabW "RM -rf /tmp" = [.speak harmfulUtt] :=
  ⟨by decide, (c8_denylist_blocks_shell collabW "RM -rf /tmp" (by decide)).1⟩

end Jarvis
